import Mathlib

/-!
Verification of the boot-pool orchestrator (`middlewared/plugins/boot.py`)
against its natural-language specification.

The Python service is shallowly embedded: each middleware call made by an
operation is recorded as an explicit effect in a trace, the external
collaborators (disk inventory, pool engine, firmware probe, configuration
store) are supplied as an explicit environment, and Python exceptions become
explicit error values.  Every definition mirrors the corresponding source
function line by line.
-/

namespace Boot

/-- A partition as returned by the `disk.list_partitions` collaborator:
only the fields read by `attach` are kept. -/
structure Partition where
  partition_type : String
  size : Nat
deriving DecidableEq

/-- The format options dictionary built by `attach` (`format_opts` in the
source): an optional pinned partition size and an optional swap size. -/
structure FormatOpts where
  size : Option Nat
  swap_size : Option Nat
deriving DecidableEq

/-- One observable middleware call or sub-step performed by `attach`.
`extendStart` records spawning the `zfs.pool.extend` job, `extendWait`
records `job.wrap` on that job. -/
inductive Effect where
  | getDisks
  | listPartitions (disk : String)
  | getZfsPartType
  | getSwapSize (disk : String)
  | format (dev : String) (opts : FormatOpts)
  | poolQuery (pool : Option String)
  | extendStart (pool : Option String) (target : String) (path : String)
  | installLoader (boottype : Option String) (dev : String)
  | extendWait
  | online (pool : Option String) (dev : String) (expand : Bool)
deriving DecidableEq

/-- Errors `attach` can raise: `CallError(msg)` from the topology check, and
the Python `IndexError` raised by `disks[0]` on an empty member list. -/
inductive AttachError where
  | callError (msg : String)
  | indexError
deriving DecidableEq

/-- Result of a run of `attach`: the trace of effects it performed, and the
error it raised, if any. -/
structure AttachResult where
  trace : List Effect
  error : Option AttachError
deriving DecidableEq

/-- The environment `attach` runs in: the answers of every external
collaborator it consults.  `disks` is the boot pool member list returned by
`get_disks`; `partitions` is `disk.list_partitions` on the first member;
`zfs_part_uuid` is `device.get_zfs_part_type`; `swap_size` is
`disk.get_swap_size` on the first member (0 is Python-falsy); `format_boottype`
is the classification returned by `boot.format`; `data_guid` is the guid of the
first data group member of the pool query; `poolName` is the global
`BOOT_POOL_NAME` (None when never resolved). -/
structure AttachEnv where
  poolName : Option String
  disks : List String
  partitions : List Partition
  zfs_part_uuid : String
  swap_size : Nat
  format_boottype : Option String
  data_guid : String
deriving DecidableEq

/-- The size-pinning loop of `attach`: for every partition whose type matches
the zfs partition uuid, the source assigns its size into the options dict, so
the last matching partition wins; `none` when no partition matches. -/
def pinnedSize (parts : List Partition) (uuid : String) : Option Nat :=
  parts.foldl (fun acc p => if p.partition_type = uuid then some p.size else acc) none

/-- `BootService.attach(dev, options)`.  Mirrors the source: list the member
disks; raise `CallError("3-way mirror not supported")` when more than one
member exists; with `expand` false, pin the format size to the matching
partition of the first member (reading `disks[0]` raises `IndexError` on an
empty list, before the `disk.list_partitions` call is made); copy the swap
size of the first member when non-zero; format the new device; query the
pool; spawn the extend job; install the loader; wait on the extend job;
bring the new member online with the expand flag forced true. -/
def attach (env : AttachEnv) (dev : String) (expand : Bool) : AttachResult :=
  if 1 < env.disks.length then
    { trace := [Effect.getDisks],
      error := some (AttachError.callError "3-way mirror not supported") }
  else
    match env.disks with
    | [] => { trace := [Effect.getDisks], error := some AttachError.indexError }
    | disk0 :: _ =>
      { trace := Effect.getDisks ::
          (if expand then [] else [Effect.listPartitions disk0, Effect.getZfsPartType]) ++
          [Effect.getSwapSize disk0,
           Effect.format dev
             { size := if expand then none else pinnedSize env.partitions env.zfs_part_uuid,
               swap_size := if env.swap_size = 0 then none else some env.swap_size },
           Effect.poolQuery env.poolName,
           Effect.extendStart env.poolName env.data_guid
             (String.append "/dev/" (String.append dev "p2")),
           Effect.installLoader env.format_boottype dev,
           Effect.extendWait,
           Effect.online env.poolName (String.append dev "p2") true],
        error := none }

/-- An effect that writes to a disk or mutates the pool topology. -/
def Effect.isDiskWrite : Effect → Bool
  | .format _ _ => true
  | .extendStart _ _ _ => true
  | .installLoader _ _ => true
  | .extendWait => true
  | .online _ _ _ => true
  | _ => false

/-- Recognize the `boot.format` effect. -/
def Effect.isFormat : Effect → Bool
  | .format _ _ => true
  | _ => false

/-- Recognize the spawn of the `zfs.pool.extend` job. -/
def Effect.isExtendStart : Effect → Bool
  | .extendStart _ _ _ => true
  | _ => false

/-- Recognize the `install_loader` sub-step. -/
def Effect.isInstallLoader : Effect → Bool
  | .installLoader _ _ => true
  | _ => false

/-- Recognize the `job.wrap` wait on the extend job. -/
def Effect.isExtendWait : Effect → Bool
  | .extendWait => true
  | _ => false

/-- Recognize the `zfs.pool.online` call. -/
def Effect.isOnline : Effect → Bool
  | .online _ _ _ => true
  | _ => false

/-- Index of the first effect satisfying `p`, counting from `n`. -/
def firstIdxAux (p : Effect → Bool) : List Effect → Nat → Option Nat
  | [], _ => none
  | e :: es, n => if p e then some n else firstIdxAux p es (n + 1)

/-- Index of the first effect in the trace satisfying `p`. -/
def firstIdx (p : Effect → Bool) (tr : List Effect) : Option Nat :=
  firstIdxAux p tr 0

/-- The ordering property claimed of a run: the wait on the extend job
occurs strictly before the loader-install step. -/
def waitedBeforeInstall (r : AttachResult) : Prop :=
  ∀ i j, firstIdx Effect.isExtendWait r.trace = some i →
    firstIdx Effect.isInstallLoader r.trace = some j → i < j

/-- A one-member pool environment used to exercise successful runs. -/
def env1 : AttachEnv :=
  { poolName := some "boot-pool"
    disks := ["ada0"]
    partitions := [{ partition_type := "516e7cba", size := 1000 }]
    zfs_part_uuid := "516e7cba"
    swap_size := 0
    format_boottype := some "BIOS"
    data_guid := "g1" }

/-- A two-member pool environment used to exercise the topology guard. -/
def env2 : AttachEnv :=
  { poolName := some "boot-pool"
    disks := ["ada0", "ada1"]
    partitions := [{ partition_type := "516e7cba", size := 1000 }]
    zfs_part_uuid := "516e7cba"
    swap_size := 0
    format_boottype := some "BIOS"
    data_guid := "g1" }

/-- An empty pool environment used to exercise the `disks[0]` access. -/
def env0 : AttachEnv :=
  { poolName := some "boot-pool"
    disks := []
    partitions := []
    zfs_part_uuid := "516e7cba"
    swap_size := 0
    format_boottype := some "BIOS"
    data_guid := "g1" }

/-- One step of the counting loop in `__get_boot_type_freebsd`: the
accumulator is the pair (efi count, bios count); an entry equal to `efi`
increments the first counter, else an entry equal to `freebsd-boot`
increments the second, any other entry is ignored. -/
def countBootStep (acc : Nat × Nat) (t : String) : Nat × Nat :=
  if t = "efi" then (acc.1 + 1, acc.2)
  else if t = "freebsd-boot" then (acc.1, acc.2 + 1)
  else acc

/-- The (efi, bios) partition counts accumulated over every member disk, as
in the nested loop of `__get_boot_type_freebsd`.  Each member disk is given
by the list of partition-type strings found in its geometry entries. -/
def bootCounts (disks : List (List String)) : Nat × Nat :=
  disks.foldl (fun acc d => d.foldl countBootStep acc) (0, 0)

/-- Number of partition entries of type `efi` over all member disks. -/
def efiCount (disks : List (List String)) : Nat :=
  (disks.map (fun d => (d.filter (fun s => s = "efi")).length)).sum

/-- Number of partition entries of type `freebsd-boot` over all member disks. -/
def biosCount (disks : List (List String)) : Nat :=
  (disks.map (fun d => (d.filter (fun s => s = "freebsd-boot")).length)).sum

/-- `BootService.__get_boot_type_freebsd`: count efi and freebsd-boot
partitions over all member disks; both zero gives None, a positive bios
count gives BIOS, otherwise EFI. -/
def get_boot_type_freebsd (disks : List (List String)) : Option String :=
  if (bootCounts disks).1 = 0 && (bootCounts disks).2 = 0 then none
  else if 0 < (bootCounts disks).2 then some "BIOS"
  else some "EFI"

/-- `BootService.get_boot_type` on the Linux code path: EFI exactly when the
firmware marker `/sys/firmware/efi` exists, BIOS otherwise. -/
def get_boot_type_linux (efiExists : Bool) : Option String :=
  if efiExists then some "EFI" else some "BIOS"

/-- `BootService.get_boot_type`: dispatch on `IS_LINUX` between the firmware
marker check and the BSD partition scan. -/
def get_boot_type (isLinux : Bool) (efiExists : Bool) (disks : List (List String)) :
    Option String :=
  if isLinux then get_boot_type_linux efiExists else get_boot_type_freebsd disks

/-- Outcome of the `os.makedirs` call in `install_loader`: success, the
`FileExistsError` the source catches, or any other `OSError`, which the
source does not catch. -/
inductive MkdirResult where
  | ok
  | fileExists
  | otherError
deriving DecidableEq

/-- Environment of `install_loader`: the only step of the EFI path that can
raise is `os.makedirs` (the mount, copy and umount commands are run with
`check=False` and never raise on a non-zero exit status). -/
structure LoaderEnv where
  mkdirResult : MkdirResult
deriving DecidableEq

/-- One observable sub-step of `install_loader`. -/
inductive LoaderEffect where
  | mount (dev : String)
  | makedirs
  | copy
  | umount
  | gpartBootcode (dev : String)
deriving DecidableEq

/-- The Python exception `install_loader` can let escape: an uncaught
`OSError` from `os.makedirs`. -/
inductive LoaderError where
  | osError
deriving DecidableEq

/-- `BootService.install_loader(boottype, dev)`.  On the EFI path: mount the
first partition of the disk into a temporary directory, try `os.makedirs`
catching only `FileExistsError`, copy the loader payload, umount.  There is
no try/finally around the umount: when `os.makedirs` raises any other
`OSError` the exception propagates and the umount command is never run.  On
any other boot type: run `gpart bootcode` against the raw device. -/
def install_loader (env : LoaderEnv) (boottype : Option String) (dev : String) :
    List LoaderEffect × Option LoaderError :=
  if boottype = some "EFI" then
    match env.mkdirResult with
    | MkdirResult.otherError =>
      ([LoaderEffect.mount dev, LoaderEffect.makedirs], some LoaderError.osError)
    | _ =>
      ([LoaderEffect.mount dev, LoaderEffect.makedirs, LoaderEffect.copy,
        LoaderEffect.umount], none)
  else
    ([LoaderEffect.gpartBootcode dev], none)

/-- A loader environment whose `os.makedirs` fails with an uncaught error. -/
def envMkdirFail : LoaderEnv := { mkdirResult := MkdirResult.otherError }

/-- Modelled from the spec: the persistent configuration store behind
`datastore.update("system.advanced", ..., adv_boot_scrub)` and
`system.advanced.config()["boot_scrub"]` is not among the sources here; per
the spec the scrub interval is "persisted in system-wide configuration,
read/written as a single scalar", so both names address the same persisted
scalar, held in this state record. -/
structure ConfigState where
  boot_scrub : Int
deriving DecidableEq

/-- The error raised when the scrub interval fails input validation. -/
inductive ScrubError where
  | invalidArgument
deriving DecidableEq

/-- Modelled from the spec: the `Range(min=1)` validator attached to the
`interval` argument of `set_scrub_interval` lives in
`middlewared.validators`, which is not among the sources here; per the spec
it "rejects non-positive values as InvalidArgument" before the handler body
runs. -/
def rangeMin1 (interval : Int) : Bool := 1 ≤ interval

/-- `BootService.set_scrub_interval(interval)`: the `Range(min=1)` validator
rejects values below 1 before the body runs; otherwise the body persists the
value and returns it.  Returns the (possibly unchanged) configuration state
together with the outcome. -/
def set_scrub_interval (st : ConfigState) (interval : Int) :
    ConfigState × Except ScrubError Int :=
  if rangeMin1 interval then ({ boot_scrub := interval }, Except.ok interval)
  else (st, Except.error ScrubError.invalidArgument)

/-- `BootService.get_scrub_interval()`: read the persisted scalar. -/
def get_scrub_interval (st : ConfigState) : Int :=
  st.boot_scrub

/-- The fixed list of accepted legacy boot-pool names (`BOOT_POOL_NAME_VALID`). -/
def BOOT_POOL_NAME_VALID : List String := ["freenas-boot", "boot-pool"]

/-- The `setup` hook: scan the listed pool names and pick the first accepted
legacy name present; when none matches the global name stays None (the
source only logs an error). -/
def setup (pools : List String) : Option String :=
  BOOT_POOL_NAME_VALID.find? (fun i => pools.contains i)

/-- A pool-engine call issued by one of the simple read operations, carrying
the (possibly unresolved) boot pool name it was given. -/
inductive BootCall where
  | zfsPoolGetDisks (name : Option String)
  | zfsPoolQuery (name : Option String)
deriving DecidableEq

/-- The unavailable-resource condition the spec requires for operations
invoked while the pool name is unresolved.  The embedding carries it so that
requirement is statable; the source never produces it. -/
inductive OpError where
  | unresolvedPool
deriving DecidableEq

/-- `BootService.get_disks`: the source unconditionally issues
`zfs.pool.get_disks(BOOT_POOL_NAME)`, with no check that the name was
resolved. -/
def get_disks (bootPoolName : Option String) : Except OpError BootCall :=
  Except.ok (BootCall.zfsPoolGetDisks bootPoolName)

/-- `BootService.get_state`: the source unconditionally issues
`zfs.pool.query` filtered on `BOOT_POOL_NAME`, with no check that the name
was resolved. -/
def get_state (bootPoolName : Option String) : Except OpError BootCall :=
  Except.ok (BootCall.zfsPoolQuery bootPoolName)

/-- A loader environment whose `os.makedirs` hits an existing directory. -/
def envMkdirExists : LoaderEnv := { mkdirResult := MkdirResult.fileExists }

/-- A concrete configuration state holding a prior scrub interval. -/
def st0 : ConfigState := { boot_scrub := 14 }

/- ------------------------------------------------------------------ -/
/- Helper lemmas                                                      -/
/- ------------------------------------------------------------------ -/

/-- Folding the counting step over one disk adds the number of `efi` entries
to the first counter and the number of `freebsd-boot` entries to the second. -/
theorem countBootStep_foldl (ts : List String) (a b : Nat) :
    ts.foldl countBootStep (a, b) =
      (a + (ts.filter (fun s => s = "efi")).length,
       b + (ts.filter (fun s => s = "freebsd-boot")).length) := by
  have hne : ("efi" : String) ≠ "freebsd-boot" := by decide
  have hne2 : ("freebsd-boot" : String) ≠ "efi" := by decide
  induction ts generalizing a b with
  | nil => simp
  | cons t ts ih =>
    simp only [List.foldl_cons, List.filter_cons]
    by_cases h1 : t = "efi"
    · subst h1
      simp [countBootStep, hne, ih, Prod.mk.injEq]
      omega
    · by_cases h2 : t = "freebsd-boot"
      · subst h2
        simp [countBootStep, hne2, ih, Prod.mk.injEq]
        omega
      · simp [countBootStep, h1, h2, ih]

/-- The accumulated pair of `bootCounts` equals the per-type filter counts. -/
theorem bootCountsAux (disks : List (List String)) (a b : Nat) :
    disks.foldl (fun acc d => d.foldl countBootStep acc) (a, b) =
      (a + efiCount disks, b + biosCount disks) := by
  induction disks generalizing a b with
  | nil => simp [efiCount, biosCount]
  | cons d ds ih =>
    simp only [List.foldl_cons]
    rw [countBootStep_foldl, ih]
    simp [efiCount, biosCount, Prod.mk.injEq]
    omega

/-- The loop counters of `__get_boot_type_freebsd` are exactly the efi and
freebsd-boot partition counts over all member disks. -/
theorem bootCounts_eq (disks : List (List String)) :
    bootCounts disks = (efiCount disks, biosCount disks) := by
  unfold bootCounts
  rw [bootCountsAux]
  simp

/-- When the pinning fold produces a size, some partition of the list
matches the uuid and has exactly that size (or the size was already in the
accumulator). -/
theorem pinnedSize_aux (uuid : String) (parts : List Partition) :
    ∀ (acc : Option Nat) (s : Nat),
      parts.foldl (fun acc p => if p.partition_type = uuid then some p.size else acc) acc
          = some s →
      (∃ p ∈ parts, p.partition_type = uuid ∧ p.size = s) ∨ acc = some s := by
  induction parts with
  | nil => intro acc s h; exact Or.inr h
  | cons p ps ih =>
    intro acc s h
    simp only [List.foldl_cons] at h
    rcases ih _ s h with h2 | h2
    · obtain ⟨q, hq, hq2⟩ := h2
      exact Or.inl ⟨q, List.mem_cons_of_mem p hq, hq2⟩
    · by_cases hp : p.partition_type = uuid
      · rw [if_pos hp] at h2
        exact Or.inl ⟨p, List.mem_cons_self p ps, hp, Option.some.inj h2⟩
      · rw [if_neg hp] at h2
        exact Or.inr h2

/-- A pinned size always is the size of some partition matching the uuid. -/
theorem pinnedSize_mem (parts : List Partition) (uuid : String) (s : Nat)
    (h : pinnedSize parts uuid = some s) :
    ∃ p ∈ parts, p.partition_type = uuid ∧ p.size = s := by
  unfold pinnedSize at h
  rcases pinnedSize_aux uuid parts none s h with h2 | h2
  · exact h2
  · exact absurd h2 (by simp)

/-- `attach` on a one-member pool runs the full success sequence. -/
theorem attach_singleton (env : AttachEnv) (dev : String) (expand : Bool) (d : String)
    (hd : env.disks = [d]) :
    attach env dev expand =
      { trace := Effect.getDisks ::
          (if expand then [] else [Effect.listPartitions d, Effect.getZfsPartType]) ++
          [Effect.getSwapSize d,
           Effect.format dev
             { size := if expand then none else pinnedSize env.partitions env.zfs_part_uuid,
               swap_size := if env.swap_size = 0 then none else some env.swap_size },
           Effect.poolQuery env.poolName,
           Effect.extendStart env.poolName env.data_guid
             (String.append "/dev/" (String.append dev "p2")),
           Effect.installLoader env.format_boottype dev,
           Effect.extendWait,
           Effect.online env.poolName (String.append dev "p2") true],
        error := none } := by
  simp [attach, hd]

/-- A run of `attach` that raises no error started from a one-member pool. -/
theorem attach_success_disks (env : AttachEnv) (dev : String) (expand : Bool)
    (h : (attach env dev expand).error = none) : ∃ d, env.disks = [d] := by
  by_cases hl : 1 < env.disks.length
  · simp [attach, hl] at h
  · cases hd : env.disks with
    | nil => simp [attach, hd] at h
    | cons d rest =>
      cases rest with
      | nil => exact ⟨d, rfl⟩
      | cons e rest2 =>
        exfalso
        apply hl
        rw [hd]
        simp

/- ------------------------------------------------------------------ -/
/- Claims                                                             -/
/- ------------------------------------------------------------------ -/

/-- Claim C1: whenever the boot pool already has 2 or more member disks,
`attach` fails with the `CallError` message "3-way mirror not supported",
and its trace holds only the member-disk query: no disk I/O, no formatting,
and no topology mutation has occurred. -/
theorem attach_two_members_rejected (env : AttachEnv) (dev : String) (expand : Bool)
    (h : 2 ≤ env.disks.length) :
    (attach env dev expand).error =
      some (AttachError.callError "3-way mirror not supported") ∧
    (attach env dev expand).trace = [Effect.getDisks] ∧
    ∀ e ∈ (attach env dev expand).trace, e.isDiskWrite = false := by
  have hl : 1 < env.disks.length := h
  refine ⟨?_, ?_, ?_⟩ <;> simp [attach, hl, Effect.isDiskWrite]

/-- Witness for C1: a concrete two-member pool rejects `attach`. -/
theorem attach_two_members_rejected_witness :
    2 ≤ env2.disks.length ∧
    ((attach env2 "ada2" false).error =
       some (AttachError.callError "3-way mirror not supported") ∧
     (attach env2 "ada2" false).trace = [Effect.getDisks] ∧
     ∀ e ∈ (attach env2 "ada2" false).trace, e.isDiskWrite = false) :=
  ⟨by decide, attach_two_members_rejected env2 "ada2" false (by decide)⟩

/-- Counterexample to claim C2: in a concrete successful run of `attach` the
loader-install step occurs at trace index 7 and the wait on the extend job
only at index 8, so the extend job is not waited on to completion before the
boot loader is installed. -/
theorem attach_wait_before_loader_cex :
    (attach env1 "ada1" false).error = none ∧
    firstIdx Effect.isInstallLoader (attach env1 "ada1" false).trace = some 7 ∧
    firstIdx Effect.isExtendWait (attach env1 "ada1" false).trace = some 8 ∧
    ¬ waitedBeforeInstall (attach env1 "ada1" false) := by
  refine ⟨by decide, by decide, by decide, ?_⟩
  intro h
  have h2 := h 8 7 (by decide) (by decide)
  omega

/-- Claim C2 (amended): within every successful run of `attach`, the extend
job is spawned before the loader install, the loader install happens before
the extend job is waited on, and the wait completes before the new member is
brought online. -/
theorem attach_extend_wait_order (env : AttachEnv) (dev : String) (expand : Bool)
    (h : (attach env dev expand).error = none) :
    ∃ i j k l : Nat,
      firstIdx Effect.isExtendStart (attach env dev expand).trace = some i ∧
      firstIdx Effect.isInstallLoader (attach env dev expand).trace = some j ∧
      firstIdx Effect.isExtendWait (attach env dev expand).trace = some k ∧
      firstIdx Effect.isOnline (attach env dev expand).trace = some l ∧
      i < j ∧ j < k ∧ k < l := by
  obtain ⟨d, hd⟩ := attach_success_disks env dev expand h
  rw [attach_singleton env dev expand d hd]
  cases expand with
  | false => exact ⟨6, 7, 8, 9, rfl, rfl, rfl, rfl, by omega, by omega, by omega⟩
  | true => exact ⟨4, 5, 6, 7, rfl, rfl, rfl, rfl, by omega, by omega, by omega⟩

/-- Witness for the amended C2: the ordering holds on a concrete successful
run. -/
theorem attach_extend_wait_order_witness :
    (attach env1 "ada0" true).error = none ∧
    (∃ i j k l : Nat,
      firstIdx Effect.isExtendStart (attach env1 "ada0" true).trace = some i ∧
      firstIdx Effect.isInstallLoader (attach env1 "ada0" true).trace = some j ∧
      firstIdx Effect.isExtendWait (attach env1 "ada0" true).trace = some k ∧
      firstIdx Effect.isOnline (attach env1 "ada0" true).trace = some l ∧
      i < j ∧ j < k ∧ k < l) :=
  ⟨by decide, attach_extend_wait_order env1 "ada0" true (by decide)⟩

/-- Claim C3: on the BSD-style path, a positive count of freebsd-boot
partitions over the member disks classifies as BIOS regardless of the efi
count; a zero bios count with a positive efi count classifies as EFI; and
two zero counts classify as Unknown (None). -/
theorem detect_boot_type_tiebreak (disks : List (List String)) :
    (0 < biosCount disks → get_boot_type_freebsd disks = some "BIOS") ∧
    (biosCount disks = 0 → 0 < efiCount disks →
      get_boot_type_freebsd disks = some "EFI") ∧
    (biosCount disks = 0 → efiCount disks = 0 →
      get_boot_type_freebsd disks = none) := by
  have hb := bootCounts_eq disks
  refine ⟨?_, ?_, ?_⟩
  · intro h
    have h2 : ¬ biosCount disks = 0 := by omega
    simp [get_boot_type_freebsd, hb, h, h2]
  · intro h h2
    have h3 : ¬ efiCount disks = 0 := by omega
    have h4 : ¬ 0 < biosCount disks := by omega
    simp [get_boot_type_freebsd, hb, h, h3, h4]
  · intro h h2
    simp [get_boot_type_freebsd, hb, h, h2]

/-- Witness for C3: concrete disk sets exercising all three branches: a
mixed set classifies BIOS, an efi-only set classifies EFI, and a set with no
matching partitions classifies Unknown. -/
theorem detect_boot_type_tiebreak_witness :
    get_boot_type_freebsd [["freebsd-boot", "efi"]] = some "BIOS" ∧
    get_boot_type_freebsd [["efi"], ["linux-data"]] = some "EFI" ∧
    get_boot_type_freebsd [["linux-data"], []] = none :=
  ⟨(detect_boot_type_tiebreak [["freebsd-boot", "efi"]]).1 (by decide),
   (detect_boot_type_tiebreak [["efi"], ["linux-data"]]).2.1 (by decide) (by decide),
   (detect_boot_type_tiebreak [["linux-data"], []]).2.2 (by decide) (by decide)⟩

/-- Claim C4: on a one-member pool, `attach` with expand false only ever
passes a format size that is the size of a partition of the existing member
whose type matches the zfs member-partition type (hence never larger than
that partition); with expand true the format options carry no size at all. -/
theorem attach_format_size_pinned (env : AttachEnv) (dev : String)
    (h1 : env.disks.length = 1) :
    (∀ d o, Effect.format d o ∈ (attach env dev false).trace →
      ∀ s, o.size = some s → ∃ p ∈ env.partitions,
        p.partition_type = env.zfs_part_uuid ∧ s ≤ p.size) ∧
    (∀ d o, Effect.format d o ∈ (attach env dev true).trace → o.size = none) := by
  obtain ⟨d0, hd⟩ : ∃ d, env.disks = [d] := by
    cases hds : env.disks with
    | nil => rw [hds] at h1; simp at h1
    | cons x xs =>
      cases xs with
      | nil => exact ⟨x, rfl⟩
      | cons y ys => rw [hds] at h1; simp at h1
  rw [attach_singleton env dev false d0 hd, attach_singleton env dev true d0 hd]
  constructor
  · intro d o hmem s hs
    simp at hmem
    obtain ⟨-, ho⟩ := hmem
    rw [ho] at hs
    simp at hs
    obtain ⟨p, hp, hptype, hpsize⟩ :=
      pinnedSize_mem env.partitions env.zfs_part_uuid s hs
    exact ⟨p, hp, hptype, le_of_eq hpsize.symm⟩
  · intro d o hmem
    simp at hmem
    obtain ⟨-, ho⟩ := hmem
    rw [ho]

/-- Witness for C4: the concrete one-member pool environment satisfies both
parts of the pinning property. -/
theorem attach_format_size_pinned_witness :
    env1.disks.length = 1 ∧
    ((∀ d o, Effect.format d o ∈ (attach env1 "ada1" false).trace →
       ∀ s, o.size = some s → ∃ p ∈ env1.partitions,
         p.partition_type = env1.zfs_part_uuid ∧ s ≤ p.size) ∧
     (∀ d o, Effect.format d o ∈ (attach env1 "ada1" true).trace →
       o.size = none)) :=
  ⟨by decide, attach_format_size_pinned env1 "ada1" (by decide)⟩

/-- Claim C5: a non-positive interval is rejected with `InvalidArgument` and
the persisted value is left untouched, so a subsequent read returns the
prior value. -/
theorem set_scrub_interval_rejects_nonpositive (st : ConfigState) (days : Int)
    (h : days ≤ 0) :
    (set_scrub_interval st days).2 = Except.error ScrubError.invalidArgument ∧
    get_scrub_interval (set_scrub_interval st days).1 = get_scrub_interval st := by
  have hr : rangeMin1 days = false := by
    simp [rangeMin1]
    omega
  simp [set_scrub_interval, hr]

/-- Witness for C5: rejecting interval 0 leaves the stored value 14 in
place. -/
theorem set_scrub_interval_rejects_nonpositive_witness :
    (0 : Int) ≤ 0 ∧
    ((set_scrub_interval st0 0).2 = Except.error ScrubError.invalidArgument ∧
     get_scrub_interval (set_scrub_interval st0 0).1 = get_scrub_interval st0) :=
  ⟨by decide, set_scrub_interval_rejects_nonpositive st0 0 (by decide)⟩

/-- Claim C6: for every interval of at least 1 day, `set_scrub_interval`
persists the value and returns it, and a subsequent `get_scrub_interval`
reads back exactly that integer. -/
theorem scrub_interval_roundtrip (st : ConfigState) (days : Int) (h : 1 ≤ days) :
    (set_scrub_interval st days).2 = Except.ok days ∧
    get_scrub_interval (set_scrub_interval st days).1 = days := by
  have hr : rangeMin1 days = true := by
    simp [rangeMin1]
    omega
  simp [set_scrub_interval, get_scrub_interval, hr]

/-- Witness for C6: setting interval 35 round-trips through the store. -/
theorem scrub_interval_roundtrip_witness :
    (1 : Int) ≤ 35 ∧
    ((set_scrub_interval st0 35).2 = Except.ok 35 ∧
     get_scrub_interval (set_scrub_interval st0 35).1 = 35) :=
  ⟨by decide, scrub_interval_roundtrip st0 35 (by decide)⟩

/-- Counterexample to claim C7: when `os.makedirs` fails with an error other
than `FileExistsError`, the EFI install path exits with the partition still
mounted: the trace holds the mount but no umount. -/
theorem install_loader_unmount_cex :
    (install_loader envMkdirFail (some "EFI") "ada1").1 =
      [LoaderEffect.mount "ada1", LoaderEffect.makedirs] ∧
    LoaderEffect.umount ∉ (install_loader envMkdirFail (some "EFI") "ada1").1 ∧
    (install_loader envMkdirFail (some "EFI") "ada1").2 =
      some LoaderError.osError := by
  decide

/-- Claim C7 (amended): on the EFI path the mounted partition is unmounted
on every exit path on which the directory-creation step either succeeds or
fails with FileExistsError (the only failures the source catches; the mount,
copy and umount commands themselves never abort the sequence); when
directory creation fails with any other error, the error propagates and no
unmount is performed. -/
theorem install_loader_unmount_amended (env : LoaderEnv) (dev : String)
    (h : env.mkdirResult ≠ MkdirResult.otherError) :
    (install_loader env (some "EFI") dev).1 =
      [LoaderEffect.mount dev, LoaderEffect.makedirs, LoaderEffect.copy,
       LoaderEffect.umount] ∧
    LoaderEffect.umount ∈ (install_loader env (some "EFI") dev).1 ∧
    (install_loader env (some "EFI") dev).2 = none := by
  cases hm : env.mkdirResult with
  | otherError => exact absurd hm h
  | ok => refine ⟨?_, ?_, ?_⟩ <;> simp [install_loader, hm]
  | fileExists => refine ⟨?_, ?_, ?_⟩ <;> simp [install_loader, hm]

/-- Witness for the amended C7: the unmount runs when the efi directory
already exists. -/
theorem install_loader_unmount_amended_witness :
    envMkdirExists.mkdirResult ≠ MkdirResult.otherError ∧
    ((install_loader envMkdirExists (some "EFI") "ada1").1 =
       [LoaderEffect.mount "ada1", LoaderEffect.makedirs, LoaderEffect.copy,
        LoaderEffect.umount] ∧
     LoaderEffect.umount ∈ (install_loader envMkdirExists (some "EFI") "ada1").1 ∧
     (install_loader envMkdirExists (some "EFI") "ada1").2 = none) :=
  ⟨by decide, install_loader_unmount_amended envMkdirExists "ada1" (by decide)⟩

/-- Counterexample to claim C8: on a host whose pools give no accepted
legacy name, the pool name stays unresolved, yet `get_disks` and `get_state`
do not fail with the unresolved-pool condition: each issues its pool-engine
call with the unresolved name. -/
theorem unresolved_pool_cex :
    setup ["tank"] = none ∧
    get_disks (setup ["tank"]) ≠ Except.error OpError.unresolvedPool ∧
    get_state (setup ["tank"]) ≠ Except.error OpError.unresolvedPool ∧
    get_disks (setup ["tank"]) = Except.ok (BootCall.zfsPoolGetDisks none) :=
  ⟨by decide, by simp [get_disks], by simp [get_state], rfl⟩

/-- Claim C8 (amended): when no listed pool name matches the fixed set of
accepted legacy names, the pool name remains unresolved and the operations
that require it do not fail with a distinct UnresolvedPool condition; each
proceeds and issues its pool-engine call with the unresolved (None) pool
name. -/
theorem unresolved_pool_amended (pools : List String)
    (h : setup pools = none) :
    get_disks (setup pools) = Except.ok (BootCall.zfsPoolGetDisks none) ∧
    get_state (setup pools) = Except.ok (BootCall.zfsPoolQuery none) := by
  rw [h]
  exact ⟨rfl, rfl⟩

/-- Witness for the amended C8: a host listing only the pool tank resolves
no boot-pool name and both read operations still issue their engine calls. -/
theorem unresolved_pool_amended_witness :
    setup ["tank"] = none ∧
    (get_disks (setup ["tank"]) = Except.ok (BootCall.zfsPoolGetDisks none) ∧
     get_state (setup ["tank"]) = Except.ok (BootCall.zfsPoolQuery none)) :=
  ⟨by decide, unresolved_pool_amended ["tank"] (by decide)⟩

/-- Claim C9: on a pool with zero member disks, `attach` fails with the
index error raised by reading the first element of the member list, its
trace holds only the member-disk query, and in particular the format step is
never reached. -/
theorem attach_empty_pool_index_error (env : AttachEnv) (dev : String) (expand : Bool)
    (h : env.disks = []) :
    (attach env dev expand).error = some AttachError.indexError ∧
    (attach env dev expand).trace = [Effect.getDisks] ∧
    ∀ e ∈ (attach env dev expand).trace, e.isFormat = false := by
  refine ⟨?_, ?_, ?_⟩ <;> simp [attach, h, Effect.isFormat]

/-- Witness for C9: the concrete empty-pool environment fails this way. -/
theorem attach_empty_pool_index_error_witness :
    env0.disks = [] ∧
    ((attach env0 "ada0" false).error = some AttachError.indexError ∧
     (attach env0 "ada0" false).trace = [Effect.getDisks] ∧
     ∀ e ∈ (attach env0 "ada0" false).trace, e.isFormat = false) :=
  ⟨rfl, attach_empty_pool_index_error env0 "ada0" false rfl⟩

/-- Claim C10: on a Linux-style host, `get_boot_type` never returns Unknown:
it returns EFI exactly when the firmware marker exists and BIOS exactly when
it does not. -/
theorem get_boot_type_linux_never_unknown (e : Bool) (disks : List (List String)) :
    get_boot_type true e disks ≠ none ∧
    (get_boot_type true e disks = some "EFI" ↔ e = true) ∧
    (get_boot_type true e disks = some "BIOS" ↔ e = false) := by
  have hne : ("BIOS" : String) ≠ "EFI" := by decide
  cases e <;>
    simp [get_boot_type, get_boot_type_linux, hne, hne.symm]

end Boot
